import Mathlib

/-!
Verification development for the OTIF alert-management assistant.

The repository under study is a small conversational assistant over two
tabular datasets (Alert records and Bill-of-Lading records).  This file
gives a shallow embedding of the dataset rows, the query functions
(src/tools/query_functions.py), the action executor
(src/tools/action_functions.py), the report generator
(src/tools/report_functions.py) and the conversation memory
(src/memory/conversation_memory.py), and proves or refutes the frozen
claims about them.

Modelling conventions:
- pandas dataframes become Lean lists of structure values, one structure
  field per column the claims touch;
- nullable columns (pandas NaN) become `Option` fields;
- Python exceptions become `Except PyErr`; a `try/except Exception`
  block becomes `pyCatch`;
- floating point columns (`OTIF_Risk_Score`, means, percentages) are
  modelled as exact rationals; Python `round(x, 1)` becomes
  round-half-to-even on rationals;
- wall-clock readings (`datetime.now()`) become explicit parameters;
- the external LLM collaborator becomes an oracle argument of type
  `String → Except PyErr ChatResponse`.
-/

namespace OTIF

/-- Exceptions that can be raised by the modelled Python fragments. -/
inductive PyErr where
  | zeroDivisionError
  | attributeError
  | typeError
  | valueError
  | exn (msg : String)
  deriving Repr, DecidableEq

/-- Rendering of an exception, modelling Python str(e). -/
def pyErrStr : PyErr → String
  | .zeroDivisionError => "division by zero"
  | .attributeError => "list object has no attribute message"
  | .typeError => "Cannot index by location index with a non-integer key"
  | .valueError => "The truth value of an array with more than one element is ambiguous"
  | .exn msg => msg

/-- Models a Python try/except-Exception block: the handler consumes any
raised exception and produces a normal value. -/
def pyCatch (x : Except PyErr α) (handler : PyErr → α) : α :=
  match x with
  | .ok a => a
  | .error e => handler e

/-- Python true division on rationals: raises ZeroDivisionError on a zero
denominator, otherwise divides exactly. -/
def pyDiv (a b : ℚ) : Except PyErr ℚ :=
  if b = 0 then .error .zeroDivisionError else .ok (a / b)

/-- Round a rational to the nearest integer, ties to even — the rounding
Python round uses. -/
def roundHalfEven (q : ℚ) : ℤ :=
  let f := ⌊q⌋
  let fr := q - (f : ℚ)
  if fr < 1/2 then f
  else if 1/2 < fr then f + 1
  else if f % 2 = 0 then f else f + 1

/-- Models Python round(x, 1): scale by ten, round half to even, scale
back. -/
def pyRound1 (q : ℚ) : ℚ :=
  (roundHalfEven (q * 10) : ℚ) / 10

/-- The last n elements of a list, in order. -/
def lastN (n : Nat) (l : List α) : List α :=
  l.drop (l.length - n)

/-- Models the Python slice l[-n:] for a non-negative n: for n = 0 the
slice is l[0:], the whole list; otherwise the last n elements. -/
def pySliceLast (n : Nat) (l : List α) : List α :=
  if n = 0 then l else lastN n l

/-- ASCII lowercasing of one character — the effect of Python str.lower
on the ASCII strings the source compares. -/
def lowerChar (c : Char) : Char :=
  if 65 ≤ c.toNat ∧ c.toNat ≤ 90 then Char.ofNat (c.toNat + 32) else c

/-- Models Python str.lower (ASCII range). -/
def pyToLower (s : String) : String := ⟨s.data.map lowerChar⟩

/-- Does the second list of characters start the first one? -/
def startsWith : List Char → List Char → Bool
  | _, [] => true
  | [], _ :: _ => false
  | c :: cs, d :: ds => c == d && startsWith cs ds

/-- Does the needle occur contiguously inside the haystack? -/
def containsSeq (hay needle : List Char) : Bool :=
  startsWith hay needle ||
    match hay with
    | [] => false
    | _ :: rest => containsSeq rest needle

/-- Case-insensitive substring test, modelling the plain-text reading of
pandas Series.str.contains(needle, case=False) as the source uses it. -/
def ciContains (hay needle : String) : Bool :=
  containsSeq (pyToLower hay).data (pyToLower needle).data

/-- Case-insensitive substring test on a nullable column value: a missing
value never matches (na=False in the source). -/
def optContains (v : Option String) (needle : String) : Bool :=
  match v with
  | none => false
  | some s => ciContains s needle

/-! ## Data model

One row of the joined view produced by DataLoader.load_data
(src/tools/data_loader.py): the inner merge of Alert.xlsx and BOL.xlsx
on the BOL column with suffixes ("_alert", "_bol").  The carrier column
of the joined view is named Carrier_Name_bol — the name
get_carrier_performance groups by — i.e. both sources carry a
Carrier_Name column and the merge suffixes the BOL-side copy.  Only the
columns the claims touch are modelled; date columns are modelled as the
formatted strings the query functions compare them with. -/

structure JoinedRow where
  BOL : String
  Customer : Option String
  Facility : Option String
  Alert_Type : Option String
  Alert_Start_Date : String
  OTIF_Risk_Score : ℚ
  Days_Left_for_Delivery : Int
  Delivery_Status : Option String
  No_of_Hours_Delayed : Int
  Carrier_Name_bol : String
  User_Email_ID : String
  deriving Repr, DecidableEq

/-- One row of the alert table (the table ActionExecutor.stop_alert and
add_note mutate through data_loader.get_alert_data).  Stop_Alert is a
boolean-as-string flag; User_Notes is a nullable free-text column. -/
structure AlertRow where
  BOL : String
  Stop_Alert : String
  User_Notes : Option String
  deriving Repr, DecidableEq

/-- The two formatted wall-clock readings the query functions derive from
datetime.now(): strftime("%Y-%m-%d") of now and of now minus one day. -/
structure Clock where
  today : String
  yesterday : String
  deriving Repr, DecidableEq

/-! ## Query Engine (src/tools/query_functions.py) -/

/-- get_alerts_by_customer_facility: case-insensitive substring filter on
Customer and Facility, then a date filter applied only when the (lowered)
date argument is the literal "today" or "yesterday"; the source has no
branch for any other date string, so every other value leaves the result
unfiltered by date. -/
def get_alerts_by_customer_facility (clock : Clock) (df : List JoinedRow)
    (customer facility date : String) : List JoinedRow :=
  let result := df.filter (fun r =>
    optContains r.Customer customer && optContains r.Facility facility)
  if (pyToLower date) == "today" then
    result.filter (fun r => r.Alert_Start_Date == clock.today)
  else if (pyToLower date) == "yesterday" then
    result.filter (fun r => r.Alert_Start_Date == clock.yesterday)
  else
    result

/-- Descending-by-risk-score ordering, the key ordering of
the sort_values call on OTIF_Risk_Score with ascending=False. -/
def riskGE (a b : JoinedRow) : Prop := b.OTIF_Risk_Score ≤ a.OTIF_Risk_Score

instance : DecidableRel riskGE :=
  fun a b => inferInstanceAs (Decidable (b.OTIF_Risk_Score ≤ a.OTIF_Risk_Score))

instance : IsTotal JoinedRow riskGE :=
  ⟨fun a b => le_total b.OTIF_Risk_Score a.OTIF_Risk_Score⟩

instance : IsTrans JoinedRow riskGE :=
  ⟨fun _ _ _ h1 h2 => le_trans h2 h1⟩

/-- get_high_risk_alerts: rows whose OTIF_Risk_Score is at least the
threshold, sorted descending by score (sort_values ascending=False,
modelled as a stable sort by the score key; tie order is not part of any
claim). -/
def get_high_risk_alerts (df : List JoinedRow) (risk_threshold : ℚ) : List JoinedRow :=
  List.insertionSort riskGE
    (df.filter (fun r => decide (risk_threshold ≤ r.OTIF_Risk_Score)))

/-- One output row of get_carrier_performance after the column rename. -/
structure CarrierStats where
  Carrier : String
  Total_Shipments : Nat
  Avg_Delay_Hours : ℚ
  On_Time_Count : Nat
  On_Time_Rate : ℚ
  deriving Repr, DecidableEq

/-- The rows of the joined view for one carrier (one groupby group). -/
def carrierGroup (df : List JoinedRow) (c : String) : List JoinedRow :=
  df.filter (fun r => r.Carrier_Name_bol == c)

/-- The aggregated row for one carrier: BOL count of the group, mean of
No_of_Hours_Delayed, count of rows with Delivery_Status equal to
"On Time", and the on-time rate (count over total, times 100, rounded to
one decimal). -/
def carrierRow (df : List JoinedRow) (c : String) : CarrierStats :=
  let grp := carrierGroup df c
  let n := grp.length
  let k := (grp.filter (fun r => r.Delivery_Status == some "On Time")).length
  { Carrier := c
    Total_Shipments := n
    Avg_Delay_Hours := (grp.map (fun r => (r.No_of_Hours_Delayed : ℚ))).sum / (n : ℚ)
    On_Time_Count := k
    On_Time_Rate := pyRound1 ((k : ℚ) / (n : ℚ) * 100) }

/-- Descending-by-mean-delay ordering, the key ordering of
the sort_values call on Avg_Delay_Hours with ascending=False. -/
def delayGE (a b : CarrierStats) : Prop := b.Avg_Delay_Hours ≤ a.Avg_Delay_Hours

instance : DecidableRel delayGE :=
  fun a b => inferInstanceAs (Decidable (b.Avg_Delay_Hours ≤ a.Avg_Delay_Hours))

instance : IsTotal CarrierStats delayGE :=
  ⟨fun a b => le_total b.Avg_Delay_Hours a.Avg_Delay_Hours⟩

instance : IsTrans CarrierStats delayGE :=
  ⟨fun _ _ _ h1 h2 => le_trans h2 h1⟩

/-- get_carrier_performance: group the joined view by Carrier_Name_bol
(pandas groupby lists each distinct key once, keys sorted ascending),
aggregate each group, then sort descending by mean delay hours (modelled
as a stable sort by the key; tie order is not part of any claim). -/
def get_carrier_performance (df : List JoinedRow) : List CarrierStats :=
  let keys := List.insertionSort (· ≤ ·) ((df.map (fun r => r.Carrier_Name_bol)).dedup)
  let stats := keys.map (carrierRow df)
  List.insertionSort delayGE stats

/-! ## Conversation Memory (src/memory/conversation_memory.py) -/

/-- One stored conversation message; the timestamp is the caller-clock
isoformat string the source stores. -/
structure ConversationMessage where
  timestamp : String
  role : String
  content : String
  metadata : List (String × String) := []
  deriving Repr, DecidableEq

/-- The ConversationMemory state: the configured maximum and the message
log. -/
structure ConversationMemory where
  max_messages : Nat
  messages : List ConversationMessage
  deriving Repr, DecidableEq

/-- A fresh memory with the given maximum (the constructor). -/
def ConversationMemory.init (max_messages : Nat) : ConversationMemory :=
  { max_messages := max_messages, messages := [] }

/-- add_message: append the entry, then, if the log length exceeds the
configured maximum, keep only the slice messages[-max_messages:]. -/
def ConversationMemory.add_message (mem : ConversationMemory)
    (msg : ConversationMessage) : ConversationMemory :=
  let msgs := mem.messages ++ [msg]
  if mem.max_messages < msgs.length then
    { mem with messages := pySliceLast mem.max_messages msgs }
  else
    { mem with messages := msgs }

/-- Fold add_message over a list of messages, oldest first. -/
def ConversationMemory.add_all (mem : ConversationMemory)
    (msgs : List ConversationMessage) : ConversationMemory :=
  msgs.foldl ConversationMemory.add_message mem

/-- get_recent_messages: the Python slice messages[-n:]. -/
def ConversationMemory.get_recent_messages (mem : ConversationMemory)
    (n : Nat) : List ConversationMessage :=
  pySliceLast n mem.messages

/-! ## Action Executor (src/tools/action_functions.py)

The executor reads and mutates the alert table and reads the joined view
through the global data loader; those tables plus the action log form the
state below.  Each operation takes an extra `loadRes` argument that
models the outcome of the lazy data_loader.get_*_data() call (which can
raise on a failed load), and `now`, the isoformat reading of
datetime.now(). -/

/-- One ChatCompletion choice message. -/
structure ChatMessage where
  content : String
  deriving Repr, DecidableEq

/-- The shape of an openai.ChatCompletion.create response the source
reads: a list of choices. -/
structure ChatResponse where
  choices : List ChatMessage
  deriving Repr, DecidableEq

/-- Models the attribute access response.choices.message in the source:
choices is a Python list, and a list object has no attribute named
message, so the access always raises AttributeError. -/
def choicesMessage (_ : List ChatMessage) : Except PyErr ChatMessage :=
  .error .attributeError

/-- rephrase_note_with_llm: call the LLM collaborator, read
response.choices.message.content.strip(); on any exception fall back to
the original note.  Because the choices.message attribute access always
raises, the fallback is always taken. -/
def rephrase_note_with_llm (llm : String → Except PyErr ChatResponse)
    (note : String) : String :=
  pyCatch
    (do
      let response ← llm note
      let m ← choicesMessage response.choices
      pure m.content.trim)
    (fun _ => note)

/-- Models the field accesses on alert_row in send_email_alert.  The
source binds alert_row to df[df[...] == bol].iloc — the indexer object
itself, not a row — and then indexes it with the string "Customer",
which raises (the iloc indexer cannot be indexed by a non-integer key). -/
def ilocRow (_ : List JoinedRow) : Except PyErr JoinedRow :=
  .error .typeError

/-- One append-only action log entry; optional fields cover the
action-specific payload keys of the three action kinds. -/
structure ActionLogEntry where
  timestamp : String
  action : String
  bol : String
  reason : Option String := none
  original_note : Option String := none
  rephrased_note : Option String := none
  email_to : Option String := none
  escalated : Option Bool := none
  success : Bool
  deriving Repr, DecidableEq

/-- The result dictionary an action returns; optional fields cover the
action-specific keys. -/
structure ActionResult where
  success : Bool
  message : String
  bol : String
  reason : Option String := none
  original_note : Option String := none
  rephrased_note : Option String := none
  email_to : Option String := none
  deriving Repr, DecidableEq

/-- The mutable state the executor touches: the cached alert table, the
cached joined view, and the in-memory action log. -/
structure ExecState where
  alerts : List AlertRow
  combined : List JoinedRow
  action_log : List ActionLogEntry
  deriving Repr, DecidableEq

/-- The failure dictionary returned when the BOL is absent. -/
def notFoundResult (bol : String) : ActionResult :=
  { success := false, message := "BOL " ++ bol ++ " not found", bol := bol }

/-- The try-block of stop_alert: fetch the alert table, fail the action
if the BOL is absent, otherwise set Stop_Alert to "Yes" on the matching
rows, append one log entry and return success with the applied reason. -/
def stop_alert_body (loadRes : Except PyErr Unit) (now : String)
    (st : ExecState) (bol reason : String) :
    Except PyErr (ActionResult × ExecState) := do
  let _ ← loadRes
  let df := st.alerts
  if !(df.map (fun r => r.BOL)).contains bol then
    return (notFoundResult bol, st)
  let df2 := df.map (fun r =>
    if r.BOL == bol then { r with Stop_Alert := "Yes" } else r)
  let entry : ActionLogEntry :=
    { timestamp := now, action := "stop_alert", bol := bol,
      reason := some reason, success := true }
  return ({ success := true,
            message := "Alert for BOL " ++ bol ++ " has been stopped",
            bol := bol, reason := some reason },
          { st with alerts := df2, action_log := st.action_log ++ [entry] })

/-- stop_alert: the try-block wrapped in except Exception, which converts
any raised error into a structured failure result and leaves the state as
it was. -/
def stop_alert (loadRes : Except PyErr Unit) (now : String)
    (st : ExecState) (bol reason : String) : ActionResult × ExecState :=
  pyCatch (stop_alert_body loadRes now st bol reason)
    (fun e =>
      ({ success := false,
         message := "Error stopping alert: " ++ pyErrStr e, bol := bol }, st))

/-- Models the condition pd.notna(current_note) and current_note, where
current_note is the numpy array df.loc[mask, col].values (the source
omits a [0] index).  Truthiness of a one-element array is the element
truthiness: notna of NaN is false; a present string is truthy when
non-empty.  An array of any other length is ambiguous as a boolean
(ValueError); an empty array evaluates false (unreachable here, the BOL
was checked present). -/
def npNotnaTruthy (vals : List (Option String)) : Except PyErr Bool :=
  match vals with
  | [] => .ok false
  | [none] => .ok false
  | [some s] => .ok (s ≠ "")
  | _ :: _ :: _ => .error .valueError

/-- Models str() of the numpy object array holding the matched
User_Notes values, as interpolated by the f-string in add_note: the
values are rendered space-separated inside square brackets, strings
quoted, NaN as nan. -/
def npArrayStr (vals : List (Option String)) : String :=
  "[" ++ String.intercalate " " (vals.map (fun v =>
    match v with
    | some s => "\x27" ++ s ++ "\x27"
    | none => "nan")) ++ "]"

/-- The try-block of add_note: fetch the alert table, fail the action if
the BOL is absent, rephrase the note (always the original, see
rephrase_note_with_llm), then build the new note: if the current
User_Notes array is truthy, the f-string renders the array followed by
"; " and the rephrased note, else just the rephrased note; store it on
the matching rows, append one log entry carrying both texts and return
success. -/
def add_note_body (loadRes : Except PyErr Unit)
    (llm : String → Except PyErr ChatResponse) (now : String)
    (st : ExecState) (bol note : String) :
    Except PyErr (ActionResult × ExecState) := do
  let _ ← loadRes
  let df := st.alerts
  if !(df.map (fun r => r.BOL)).contains bol then
    return (notFoundResult bol, st)
  let rephrased_note := rephrase_note_with_llm llm note
  let current_note := (df.filter (fun r => r.BOL == bol)).map (fun r => r.User_Notes)
  let cond ← npNotnaTruthy current_note
  let new_note :=
    if cond then npArrayStr current_note ++ "; " ++ rephrased_note
    else rephrased_note
  let df2 := df.map (fun r =>
    if r.BOL == bol then { r with User_Notes := some new_note } else r)
  let entry : ActionLogEntry :=
    { timestamp := now, action := "add_note", bol := bol,
      original_note := some note, rephrased_note := some rephrased_note,
      success := true }
  return ({ success := true, message := "Note added to BOL " ++ bol,
            bol := bol, original_note := some note,
            rephrased_note := some rephrased_note },
          { st with alerts := df2, action_log := st.action_log ++ [entry] })

/-- add_note: the try-block wrapped in except Exception. -/
def add_note (loadRes : Except PyErr Unit)
    (llm : String → Except PyErr ChatResponse) (now : String)
    (st : ExecState) (bol note : String) : ActionResult × ExecState :=
  pyCatch (add_note_body loadRes llm now st bol note)
    (fun e =>
      ({ success := false,
         message := "Error adding note: " ++ pyErrStr e, bol := bol }, st))

/-- generate_email_body_with_llm: ask the collaborator for a body, and on
any exception fall back to the fixed plain-text template over the same
fields (numeric formatting elided; the claims never inspect the body). -/
def generate_email_body_with_llm (llm : String → Except PyErr ChatResponse)
    (row : JoinedRow) (escalate : Bool) : String :=
  pyCatch
    (do
      let response ← llm (row.BOL ++ (if escalate then "!" else ""))
      let m ← choicesMessage response.choices
      pure m.content.trim)
    (fun _ =>
      "Alert Details: Customer " ++ row.Customer.getD "nan" ++
      " Facility " ++ row.Facility.getD "nan" ++
      " Alert Type " ++ row.Alert_Type.getD "nan" ++
      " Delivery Status " ++ row.Delivery_Status.getD "nan" ++
      " Action Required: Please review and take necessary action.")

/-- The try-block of send_email_alert: fetch the joined view, fail the
action if the BOL is absent, then read the matched row through the bare
iloc indexer — which raises before the email, the simulated send, the
log append or the success return are ever reached. -/
def send_email_alert_body (loadRes : Except PyErr Unit)
    (llm : String → Except PyErr ChatResponse) (now : String)
    (st : ExecState) (bol : String) (escalate : Bool) :
    Except PyErr (ActionResult × ExecState) := do
  let _ ← loadRes
  let df := st.combined
  if !(df.map (fun r => r.BOL)).contains bol then
    return (notFoundResult bol, st)
  let alert_row ← ilocRow (df.filter (fun r => r.BOL == bol))
  let email_body := generate_email_body_with_llm llm alert_row escalate
  let email_to := alert_row.User_Email_ID
  let entry : ActionLogEntry :=
    { timestamp := now, action := "send_email", bol := bol,
      email_to := some email_to, escalated := some escalate,
      success := true }
  let _ := email_body
  return ({ success := true,
            message := "Email sent for BOL " ++ bol ++
              (if escalate then " (ESCALATED)" else ""),
            bol := bol, email_to := some email_to },
          { st with action_log := st.action_log ++ [entry] })

/-- send_email_alert: the try-block wrapped in except Exception. -/
def send_email_alert (loadRes : Except PyErr Unit)
    (llm : String → Except PyErr ChatResponse) (now : String)
    (st : ExecState) (bol : String) (escalate : Bool) :
    ActionResult × ExecState :=
  pyCatch (send_email_alert_body loadRes llm now st bol escalate)
    (fun e =>
      ({ success := false,
         message := "Error sending email: " ++ pyErrStr e, bol := bol }, st))

/-! ## Report Builder (src/tools/report_functions.py) -/

/-- Descending-by-count ordering used by value_counts. -/
def countGE (a b : String × Nat) : Prop := b.2 ≤ a.2

instance : DecidableRel countGE :=
  fun a b => inferInstanceAs (Decidable (b.2 ≤ a.2))

instance : IsTotal (String × Nat) countGE := ⟨fun a b => le_total b.2 a.2⟩

instance : IsTrans (String × Nat) countGE := ⟨fun _ _ _ h1 h2 => le_trans h2 h1⟩

/-- pandas Series.value_counts on a nullable string column: drop missing
values, count each distinct value, sort descending by count. -/
def value_counts (vals : List (Option String)) : List (String × Nat) :=
  let xs := vals.filterMap id
  List.insertionSort countGE ((xs.dedup).map (fun k => (k, xs.count k)))

/-- A fallible map, sequencing Except left to right — the loop bodies of
the report that divide each count by the total. -/
def mapExcept (f : α → Except PyErr β) : List α → Except PyErr (List β)
  | [] => .ok []
  | a :: l => do
    let b ← f a
    let l2 ← mapExcept f l
    .ok (b :: l2)

/-- The numeric content of the daily summary report (the rendered string
around it is elided: the claims concern whether the computation completes
at all). -/
structure DailySummary where
  total_alerts : Nat
  high_risk : Nat
  high_risk_pct : ℚ
  delayed : Nat
  delayed_pct : ℚ
  alert_type_breakdown : List (String × Nat × ℚ)
  delivery_status_breakdown : List (String × Nat × ℚ)
  top_customers : List (String × Nat)
  top_facilities : List (String × Nat)
  deriving Repr, DecidableEq

/-- generate_daily_alert_summary: compute the counts, then build the
report, whose interpolations divide high_risk, delayed and every
breakdown count by total_alerts with no emptiness guard — on an empty
joined view the first interpolated percentage raises ZeroDivisionError. -/
def generate_daily_alert_summary (df : List JoinedRow) :
    Except PyErr DailySummary := do
  let total_alerts := df.length
  let high_risk := (df.filter (fun r => decide ((7 : ℚ)/10 < r.OTIF_Risk_Score))).length
  let delayed := (df.filter (fun r => decide (0 < r.No_of_Hours_Delayed))).length
  let alert_type_counts := value_counts (df.map (fun r => r.Alert_Type))
  let delivery_status := value_counts (df.map (fun r => r.Delivery_Status))
  let top_customers := (value_counts (df.map (fun r => r.Customer))).take 5
  let top_facilities := (value_counts (df.map (fun r => r.Facility))).take 5
  let hrq ← pyDiv (high_risk : ℚ) (total_alerts : ℚ)
  let dq ← pyDiv (delayed : ℚ) (total_alerts : ℚ)
  let atb ← mapExcept (fun p => do
    let q ← pyDiv (p.2 : ℚ) (total_alerts : ℚ)
    pure (p.1, p.2, q * 100)) alert_type_counts
  let dsb ← mapExcept (fun p => do
    let q ← pyDiv (p.2 : ℚ) (total_alerts : ℚ)
    pure (p.1, p.2, q * 100)) delivery_status
  return { total_alerts := total_alerts
           high_risk := high_risk
           high_risk_pct := hrq * 100
           delayed := delayed
           delayed_pct := dq * 100
           alert_type_breakdown := atb
           delivery_status_breakdown := dsb
           top_customers := top_customers
           top_facilities := top_facilities }

/-! ## Concrete sample data used by witnesses and counterexamples -/

/-- The rational 0.9 as a literal reduced fraction (kernel-evaluable:
the rational arithmetic operations are irreducible, literal structure
values are not). -/
def q09 : ℚ := ⟨9, 10, by decide, by decide⟩

/-- The rational 0.8 as a literal reduced fraction. -/
def q08 : ℚ := ⟨4, 5, by decide, by decide⟩

/-- The rational 0.7 as a literal reduced fraction. -/
def q07 : ℚ := ⟨7, 10, by decide, by decide⟩

/-- The rational 0.6 as a literal reduced fraction. -/
def q06 : ℚ := ⟨3, 5, by decide, by decide⟩

/-- A joined-view row builder with the fields the witnesses vary. -/
def mkRow (bol : String) (cust fac : String) (date : String) (risk : ℚ)
    (status : String) (delay : Int) (carrier : String) : JoinedRow :=
  { BOL := bol, Customer := some cust, Facility := some fac,
    Alert_Type := some "Late", Alert_Start_Date := date,
    OTIF_Risk_Score := risk, Days_Left_for_Delivery := 1,
    Delivery_Status := some status, No_of_Hours_Delayed := delay,
    Carrier_Name_bol := carrier, User_Email_ID := "a@b.c" }

/-- Three sample joined rows over two carriers. -/
def dfSample : List JoinedRow :=
  [ mkRow "B1" "Acme" "Plant1" "2024-05-02" q09 "Delayed" 20 "CarX",
    mkRow "B2" "Acme" "Plant2" "2024-05-01" q06 "On Time" 0 "CarX",
    mkRow "B3" "Beta" "Plant1" "2024-03-03" q08 "On Time" 0 "CarY" ]

/-- Three sample joined rows over a single carrier (used where kernel
evaluation must avoid comparisons of computed rationals). -/
def dfOne : List JoinedRow :=
  [ mkRow "B1" "Acme" "Plant1" "2024-05-02" q09 "Delayed" 20 "CarX",
    mkRow "B2" "Acme" "Plant2" "2024-05-01" q06 "On Time" 0 "CarX",
    mkRow "B4" "Beta" "Plant1" "2024-05-01" q08 "On Time" 4 "CarX" ]

/-- A sample alert-table state with one row whose User_Notes is empty. -/
def stSample : ExecState :=
  { alerts := [{ BOL := "B1", Stop_Alert := "No", User_Notes := some "" }],
    combined := dfSample,
    action_log := [] }

/-- A collaborator oracle that always fails (no network). -/
def llmDown : String → Except PyErr ChatResponse :=
  fun _ => .error (.exn "api unavailable")

/-! ## Helper lemmas -/

/-- The rephrase step always returns the original note: whatever the
collaborator does, the choices.message attribute access raises and the
except-clause falls back. -/
theorem rephrase_eq (llm : String → Except PyErr ChatResponse) (note : String) :
    rephrase_note_with_llm llm note = note := by
  unfold rephrase_note_with_llm
  cases h : llm note <;>
    simp [pyCatch, choicesMessage, h, Bind.bind, Except.bind]

/-- A list of at most n elements is its own n-element tail. -/
theorem lastN_of_le {n : Nat} {l : List α} (h : l.length ≤ n) : lastN n l = l := by
  simp [lastN, Nat.sub_eq_zero_of_le h]

/-- The length of the n-element tail. -/
theorem lastN_length (n : Nat) (l : List α) :
    (lastN n l).length = min n l.length := by
  simp [lastN]
  omega

/-- Taking the n-element tail before appending does not change the
n-element tail of the whole. -/
theorem lastN_append_lastN (n : Nat) (a b : List α) :
    lastN n (lastN n a ++ b) = lastN n (a ++ b) := by
  simp only [lastN, List.drop_append_eq_append_drop, List.length_append,
    List.length_drop, List.drop_drop]
  congr 2 <;> omega

/-- A string with positive length is not the empty string. -/
theorem ne_empty_of_length_pos {s : String} (h : 0 < s.length) : s ≠ "" := by
  intro he
  simp [he] at h

/-- add_message does not change the configured maximum. -/
theorem add_message_max (mem : ConversationMemory) (msg : ConversationMessage) :
    (mem.add_message msg).max_messages = mem.max_messages := by
  simp only [ConversationMemory.add_message]
  split <;> rfl

/-- One add_message step, on a log within bounds, leaves exactly the
max-element tail of the extended log. -/
theorem add_message_messages (mem : ConversationMemory) (msg : ConversationMessage)
    (hmax : 1 ≤ mem.max_messages) (hlen : mem.messages.length ≤ mem.max_messages) :
    (mem.add_message msg).messages = lastN mem.max_messages (mem.messages ++ [msg]) := by
  simp only [ConversationMemory.add_message]
  split
  · next h =>
    have hne : mem.max_messages ≠ 0 := by omega
    simp [pySliceLast, hne]
  · next h =>
    exact (lastN_of_le (Nat.not_lt.mp h)).symm

/-- Folding add_message over a message list, starting from any in-bounds
state, leaves the max-element tail of old-log-then-new-messages. -/
theorem add_all_messages (maxM : Nat) (hmax : 1 ≤ maxM)
    (L : List ConversationMessage) :
    ∀ mem : ConversationMemory, mem.max_messages = maxM →
      mem.messages.length ≤ maxM →
      (mem.add_all L).messages = lastN maxM (mem.messages ++ L) := by
  induction L with
  | nil =>
    intro mem hm hl
    simp [ConversationMemory.add_all]
    exact (lastN_of_le hl).symm
  | cons m L ih =>
    intro mem hm hl
    have h1 : (mem.add_message m).messages = lastN maxM (mem.messages ++ [m]) := by
      rw [← hm]
      exact add_message_messages mem m (hm ▸ hmax) (hm ▸ hl)
    have h2 : (mem.add_message m).max_messages = maxM := by
      rw [add_message_max, hm]
    have h3 : (mem.add_message m).messages.length ≤ maxM := by
      rw [h1, lastN_length]
      omega
    have hfold : mem.add_all (m :: L) = (mem.add_message m).add_all L := rfl
    rw [hfold, ih (mem.add_message m) h2 h3, h1, lastN_append_lastN]
    simp

/-! ## Claims about Conversation Memory -/

/-- C10: get_recent_messages(n) returns the last min(n, log length)
messages in chronological order for every n ≥ 1; for n = 0 the Python
slice messages[-0:] is messages[0:], the entire log, not the empty
list. -/
theorem C10_recent_messages (mem : ConversationMemory) (n : Nat) :
    (1 ≤ n →
      mem.get_recent_messages n = lastN n mem.messages ∧
      (mem.get_recent_messages n).length = min n mem.messages.length) ∧
    (n = 0 → mem.get_recent_messages n = mem.messages) := by
  constructor
  · intro hn
    have hne : n ≠ 0 := by omega
    refine ⟨by simp [ConversationMemory.get_recent_messages, pySliceLast, hne], ?_⟩
    simp [ConversationMemory.get_recent_messages, pySliceLast, hne, lastN_length]
  · intro h
    subst h
    simp [ConversationMemory.get_recent_messages, pySliceLast]

/-- C10 witness: a concrete two-message log, read at n = 1 and n = 0. -/
theorem C10_recent_messages_witness :
    (1 ≤ 1 ∧
      ({ max_messages := 100,
         messages := [⟨"t1", "user", "a", []⟩, ⟨"t2", "assistant", "b", []⟩] } :
          ConversationMemory).get_recent_messages 1 =
        lastN 1 [⟨"t1", "user", "a", []⟩, ⟨"t2", "assistant", "b", []⟩]) ∧
    ({ max_messages := 100,
       messages := [⟨"t1", "user", "a", []⟩, ⟨"t2", "assistant", "b", []⟩] } :
        ConversationMemory).get_recent_messages 0 =
      [⟨"t1", "user", "a", []⟩, ⟨"t2", "assistant", "b", []⟩] :=
  ⟨⟨Nat.le_refl 1, ((C10_recent_messages _ 1).1 (Nat.le_refl 1)).1⟩,
   (C10_recent_messages _ 0).2 rfl⟩

/-- C7: starting from an empty memory with configured maximum at least
one, after adding any sequence of messages the log is exactly the tail of
the sequence of length at most the maximum (oldest entries evicted
first), and any recentMessages request of at least the maximum returns
that whole tail, oldest first. -/
theorem C7_sliding_window (maxM : Nat) (hmax : 1 ≤ maxM)
    (L : List ConversationMessage) (n : Nat) :
    ((ConversationMemory.init maxM).add_all L).messages = lastN maxM L ∧
    ((ConversationMemory.init maxM).add_all L).messages.length ≤ maxM ∧
    (maxM ≤ n →
      ((ConversationMemory.init maxM).add_all L).get_recent_messages n =
        lastN maxM L) := by
  have h := add_all_messages maxM hmax L (ConversationMemory.init maxM) rfl
    (by simp [ConversationMemory.init])
  have hmsgs : ((ConversationMemory.init maxM).add_all L).messages = lastN maxM L := by
    rw [h]
    simp [ConversationMemory.init]
  refine ⟨hmsgs, ?_, ?_⟩
  · rw [hmsgs, lastN_length]
    omega
  · intro hn
    have hne : n ≠ 0 := by omega
    unfold ConversationMemory.get_recent_messages pySliceLast
    rw [hmsgs]
    simp only [hne, if_false]
    apply lastN_of_le
    rw [lastN_length]
    omega

/-- C7 witness: maximum 3, five messages added, recentMessages 10 is the
last three, oldest first. -/
theorem C7_sliding_window_witness :
    1 ≤ 3 ∧
    ((ConversationMemory.init 3).add_all
        [⟨"1", "user", "m1", []⟩, ⟨"2", "assistant", "m2", []⟩,
         ⟨"3", "user", "m3", []⟩, ⟨"4", "assistant", "m4", []⟩,
         ⟨"5", "user", "m5", []⟩]).get_recent_messages 10 =
      [⟨"3", "user", "m3", []⟩, ⟨"4", "assistant", "m4", []⟩,
       ⟨"5", "user", "m5", []⟩] := by
  refine ⟨by decide, ?_⟩
  rw [(C7_sliding_window 3 (by decide) _ 10).2.2 (by decide)]
  decide

/-! ## Claims about the Action Executor -/

/-- C2 (exhibit of the code bug): on an alert whose User_Notes starts
empty, the first add_note stores the (un)rephrased note, but the second
stores the str() of the one-element numpy array of the prior value
followed by the separator — "[\x27first\x27]; second" — because add_note
reads current_note via .values with no element index.  The claimed value
"first; second" is not produced. -/
theorem C2_note_array_repr :
    ((add_note (.ok ()) llmDown "t1" stSample "B1" "first").2.alerts.map
        (fun r => r.User_Notes) = [some "first"]) ∧
    ((add_note (.ok ()) llmDown "t2"
        (add_note (.ok ()) llmDown "t1" stSample "B1" "first").2
        "B1" "second").2.alerts.map (fun r => r.User_Notes) =
      [some "[\x27first\x27]; second"]) ∧
    "[\x27first\x27]; second" ≠ "first; second" := by
  refine ⟨by decide, by decide, by decide⟩

/-! ## Claims about the Report Builder -/

/-- C1 counterexample: on the empty joined view the daily summary raises
ZeroDivisionError from the percentage interpolation instead of returning
an explanatory message. -/
theorem C1_counterexample :
    generate_daily_alert_summary [] = .error .zeroDivisionError := by
  rfl

/-- A division with a non-zero denominator succeeds. -/
theorem pyDiv_ok {b : ℚ} (a : ℚ) (h : b ≠ 0) : pyDiv a b = .ok (a / b) := by
  simp [pyDiv, h]

/-- mapExcept of an everywhere-successful mapping is the plain map. -/
theorem mapExcept_pure (g : α → β) (l : List α) :
    mapExcept (fun a => (Except.ok (g a) : Except PyErr β)) l = .ok (l.map g) := by
  induction l with
  | nil => rfl
  | cons a l ih =>
    simp [mapExcept, ih, Bind.bind, Except.bind]

/-- C1 amended: generate_daily_alert_summary fails with ZeroDivisionError
precisely when the joined view is empty, and returns the computed summary
on every nonempty view (the source has no emptiness guard, contrary to
the claim of a graceful message). -/
theorem C1_empty_summary (df : List JoinedRow) :
    (df = [] → generate_daily_alert_summary df = .error .zeroDivisionError) ∧
    (df ≠ [] → ∃ s, generate_daily_alert_summary df = .ok s) := by
  constructor
  · rintro rfl
    rfl
  · intro hne
    have hlen : df.length ≠ 0 := by
      intro h
      exact hne (List.length_eq_zero.mp h)
    have htot : (df.length : ℚ) ≠ 0 := by
      exact_mod_cast hlen
    unfold generate_daily_alert_summary
    simp only [pyDiv_ok _ htot, Bind.bind, Except.bind, Pure.pure, Except.pure,
      mapExcept_pure]
    exact ⟨_, rfl⟩

/-- C1 witness: a nonempty view produces a summary. -/
theorem C1_empty_summary_witness :
    dfSample ≠ [] ∧ ∃ s, generate_daily_alert_summary dfSample = .ok s :=
  ⟨by decide, (C1_empty_summary dfSample).2 (by decide)⟩

/-! ## Claims about the Query Engine -/

/-- C4 counterexample: an explicit ISO date passed as the date argument
does not filter by date — a row whose Alert_Start_Date differs from the
requested day is still returned. -/
theorem C4_counterexample :
    mkRow "B3" "Beta" "Plant1" "2024-03-03" q08 "On Time" 0 "CarY" ∈
      get_alerts_by_customer_facility ⟨"2024-05-02", "2024-05-01"⟩ dfSample
        "beta" "plant" "2024-01-01" ∧
    (mkRow "B3" "Beta" "Plant1" "2024-03-03" q08 "On Time" 0
      "CarY").Alert_Start_Date ≠ "2024-01-01" := by
  refine ⟨by decide, by decide⟩

/-- C4 amended: the literals "today" and "yesterday" (case-insensitively)
are resolved against the caller wall clock and matched exactly against
Alert_Start_Date, while any other date string — including an explicit ISO
date — applies no date filter at all (pass-through). -/
theorem C4_date_filter (clock : Clock) (df : List JoinedRow)
    (customer facility date : String) :
    ((pyToLower date) = "today" →
      get_alerts_by_customer_facility clock df customer facility date =
        (df.filter (fun r =>
          optContains r.Customer customer && optContains r.Facility facility)).filter
            (fun r => r.Alert_Start_Date == clock.today)) ∧
    ((pyToLower date) = "yesterday" →
      get_alerts_by_customer_facility clock df customer facility date =
        (df.filter (fun r =>
          optContains r.Customer customer && optContains r.Facility facility)).filter
            (fun r => r.Alert_Start_Date == clock.yesterday)) ∧
    ((pyToLower date) ≠ "today" → (pyToLower date) ≠ "yesterday" →
      get_alerts_by_customer_facility clock df customer facility date =
        df.filter (fun r =>
          optContains r.Customer customer && optContains r.Facility facility)) := by
  refine ⟨?_, ?_, ?_⟩
  · intro h
    simp [get_alerts_by_customer_facility, h]
  · intro h
    simp [get_alerts_by_customer_facility, h]
  · intro h1 h2
    have hb1 : ((pyToLower date) == "today") = false := beq_eq_false_iff_ne.mpr h1
    have hb2 : ((pyToLower date) == "yesterday") = false := beq_eq_false_iff_ne.mpr h2
    simp [get_alerts_by_customer_facility, hb1, hb2]

/-- C4 witness: date "TODAY" lowers to the literal and triggers the
exact-day filter against the wall clock. -/
theorem C4_date_filter_witness :
    pyToLower "TODAY" = "today" ∧
    get_alerts_by_customer_facility ⟨"2024-05-02", "2024-05-01"⟩ dfSample
        "acme" "" "TODAY" =
      (dfSample.filter (fun r =>
        optContains r.Customer "acme" && optContains r.Facility "")).filter
          (fun r => r.Alert_Start_Date == "2024-05-02") :=
  ⟨by decide,
   (C4_date_filter ⟨"2024-05-02", "2024-05-01"⟩ dfSample "acme" "" "TODAY").1
     (by decide)⟩

/-- C5: stop_alert on a BOL present in the alert table returns success
carrying the applied reason, appends exactly one log entry tagged
stop_alert, and sets the Stop_Alert flag of every matching row to "Yes";
on an absent BOL it returns a failure result and leaves the whole state
— in particular the action log — untouched. -/
theorem C5_stop_alert (now : String) (st : ExecState) (bol reason : String) :
    (bol ∈ st.alerts.map (fun r => r.BOL) →
      (stop_alert (.ok ()) now st bol reason).1.success = true ∧
      (stop_alert (.ok ()) now st bol reason).1.reason = some reason ∧
      (stop_alert (.ok ()) now st bol reason).2.action_log =
        st.action_log ++
          [⟨now, "stop_alert", bol, some reason, none, none, none, none, true⟩] ∧
      (∀ row ∈ (stop_alert (.ok ()) now st bol reason).2.alerts,
        row.BOL = bol → row.Stop_Alert = "Yes")) ∧
    (bol ∉ st.alerts.map (fun r => r.BOL) →
      (stop_alert (.ok ()) now st bol reason).1.success = false ∧
      (stop_alert (.ok ()) now st bol reason).2 = st) := by
  have hcon : ((st.alerts.map (fun r => r.BOL)).contains bol = true) ↔
      bol ∈ st.alerts.map (fun r => r.BOL) := by simp
  constructor
  · intro hmem
    have hc : (st.alerts.map (fun r => r.BOL)).contains bol = true := hcon.mpr hmem
    simp only [stop_alert, stop_alert_body, pyCatch, Bind.bind, Except.bind,
      hc, Bool.not_true, Bool.false_eq_true, if_false, Pure.pure, Except.pure]
    refine ⟨trivial, trivial, trivial, ?_⟩
    intro row hrow hbol
    obtain ⟨r0, hr0mem, hr0⟩ := List.mem_map.mp hrow
    by_cases hb : r0.BOL == bol
    · rw [← hr0]
      simp [hb]
    · rw [← hr0] at hbol
      simp [hb] at hbol
      exact absurd hbol (by simpa using hb)
  · intro hmem
    have hc : (st.alerts.map (fun r => r.BOL)).contains bol = false := by
      rw [Bool.eq_false_iff]
      intro h
      exact hmem (hcon.mp h)
    simp only [stop_alert, stop_alert_body, pyCatch, Bind.bind, Except.bind,
      hc, Bool.not_false, if_true, Pure.pure, Except.pure]
    exact ⟨rfl, trivial⟩

/-- C5 witness: stSample holds BOL "B1" and no BOL "ZZ"; both branches
checked. -/
theorem C5_stop_alert_witness :
    ("B1" ∈ stSample.alerts.map (fun r => r.BOL) ∧
      (stop_alert (.ok ()) "t0" stSample "B1" "resolved").1.success = true ∧
      (stop_alert (.ok ()) "t0" stSample "B1" "resolved").1.reason = some "resolved" ∧
      (stop_alert (.ok ()) "t0" stSample "B1" "resolved").2.action_log =
        stSample.action_log ++
          [⟨"t0", "stop_alert", "B1", some "resolved", none, none, none, none,
            true⟩]) ∧
    ("ZZ" ∉ stSample.alerts.map (fun r => r.BOL) ∧
      (stop_alert (.ok ()) "t0" stSample "ZZ" "resolved").1.success = false ∧
      (stop_alert (.ok ()) "t0" stSample "ZZ" "resolved").2 = stSample) := by
  refine ⟨⟨by decide, ?_, ?_, ?_⟩, ⟨by decide, ?_, ?_⟩⟩
  · exact ((C5_stop_alert "t0" stSample "B1" "resolved").1 (by decide)).1
  · exact ((C5_stop_alert "t0" stSample "B1" "resolved").1 (by decide)).2.1
  · exact ((C5_stop_alert "t0" stSample "B1" "resolved").1 (by decide)).2.2.1
  · exact ((C5_stop_alert "t0" stSample "ZZ" "resolved").2 (by decide)).1
  · exact ((C5_stop_alert "t0" stSample "ZZ" "resolved").2 (by decide)).2

/-- The ok-outcomes of the stop_alert try-block: the not-found failure
with the state untouched, or the success result. -/
theorem stop_alert_body_ok {loadRes : Except PyErr Unit} {now : String}
    {st : ExecState} {bol reason : String} {p : ActionResult × ExecState}
    (h : stop_alert_body loadRes now st bol reason = .ok p) :
    p = (notFoundResult bol, st) ∨ p.1.success = true := by
  cases hl : loadRes with
  | error e =>
    rw [stop_alert_body, hl] at h
    simp [Bind.bind, Except.bind] at h
  | ok u =>
    rw [stop_alert_body, hl] at h
    simp [Bind.bind, Except.bind, Pure.pure, Except.pure] at h
    by_cases hP : ∀ x ∈ st.alerts, ¬x.BOL = bol
    · left
      rw [if_pos hP] at h
      exact (Except.ok.inj h).symm
    · right
      rw [if_neg hP] at h
      rw [← Except.ok.inj h]

/-- The ok-outcomes of the add_note try-block: the not-found failure with
the state untouched, or the success result. -/
theorem add_note_body_ok {loadRes : Except PyErr Unit}
    {llm : String → Except PyErr ChatResponse} {now : String}
    {st : ExecState} {bol note : String} {p : ActionResult × ExecState}
    (h : add_note_body loadRes llm now st bol note = .ok p) :
    p = (notFoundResult bol, st) ∨ p.1.success = true := by
  cases hl : loadRes with
  | error e =>
    rw [add_note_body, hl] at h
    simp [Bind.bind, Except.bind] at h
  | ok u =>
    rw [add_note_body, hl] at h
    simp [Bind.bind, Except.bind, Pure.pure, Except.pure] at h
    by_cases hP : ∀ x ∈ st.alerts, ¬x.BOL = bol
    · left
      rw [if_pos hP] at h
      exact (Except.ok.inj h).symm
    · rw [if_neg hP] at h
      cases hnp : npNotnaTruthy ((st.alerts.filter
          (fun r => r.BOL == bol)).map (fun r => r.User_Notes)) with
      | error e =>
        rw [hnp] at h
        simp [Bind.bind, Except.bind] at h
      | ok c =>
        right
        rw [hnp] at h
        simp [Bind.bind, Except.bind, Pure.pure, Except.pure] at h
        rw [← h]

/-- The only ok-outcome of the send_email_alert try-block is the
not-found failure: on a present BOL the bare iloc access raises before
the success return is reached. -/
theorem send_email_alert_body_ok {loadRes : Except PyErr Unit}
    {llm : String → Except PyErr ChatResponse} {now : String}
    {st : ExecState} {bol : String} {escalate : Bool}
    {p : ActionResult × ExecState}
    (h : send_email_alert_body loadRes llm now st bol escalate = .ok p) :
    p = (notFoundResult bol, st) ∨ p.1.success = true := by
  cases hl : loadRes with
  | error e =>
    rw [send_email_alert_body, hl] at h
    simp [Bind.bind, Except.bind] at h
  | ok u =>
    rw [send_email_alert_body, hl] at h
    simp [Bind.bind, Except.bind, Pure.pure, Except.pure, ilocRow] at h
    by_cases hP : ∀ x ∈ st.combined, ¬x.BOL = bol
    · left
      rw [if_pos hP] at h
      exact (Except.ok.inj h).symm
    · rw [if_neg hP] at h
      simp at h

/-- The not-found message is never the empty string. -/
theorem notFound_message_ne (bol : String) : (notFoundResult bol).message ≠ "" := by
  apply ne_empty_of_length_pos
  have h4 : ("BOL " : String).length = 4 := rfl
  have h10 : (" not found" : String).length = 10 := rfl
  simp only [notFoundResult, String.length_append, h4, h10]
  omega

/-- An error-prefixed message is never the empty string. -/
theorem prefixed_message_ne (s t : String) (h : 0 < s.length) :
    (s ++ t) ≠ "" := by
  apply ne_empty_of_length_pos
  simp only [String.length_append]
  omega

/-- C6: whatever the data-loader and collaborator oracles do, each of the
three actions returns a plain result value (the try/except converts every
raised error into the structured failure), and every failure result
carries the requested bol and a non-empty message; when the try-block
raises e, the caller receives the structured failure dictionary with the
state untouched, never the exception. -/
theorem C6_structured_failures (loadA loadC : Except PyErr Unit)
    (llmA llmC : String → Except PyErr ChatResponse)
    (now : String) (st : ExecState) (bol reason note : String)
    (escalate : Bool) :
    ((stop_alert loadA now st bol reason).1.success = false →
      (stop_alert loadA now st bol reason).1.bol = bol ∧
      (stop_alert loadA now st bol reason).1.message ≠ "") ∧
    ((add_note loadA llmA now st bol note).1.success = false →
      (add_note loadA llmA now st bol note).1.bol = bol ∧
      (add_note loadA llmA now st bol note).1.message ≠ "") ∧
    ((send_email_alert loadC llmC now st bol escalate).1.success = false →
      (send_email_alert loadC llmC now st bol escalate).1.bol = bol ∧
      (send_email_alert loadC llmC now st bol escalate).1.message ≠ "") ∧
    (∀ e, stop_alert_body loadA now st bol reason = .error e →
      stop_alert loadA now st bol reason =
        ({ success := false, message := "Error stopping alert: " ++ pyErrStr e, bol := bol }, st)) ∧
    (∀ e, add_note_body loadA llmA now st bol note = .error e →
      add_note loadA llmA now st bol note =
        ({ success := false, message := "Error adding note: " ++ pyErrStr e, bol := bol }, st)) ∧
    (∀ e, send_email_alert_body loadC llmC now st bol escalate = .error e →
      send_email_alert loadC llmC now st bol escalate =
        ({ success := false, message := "Error sending email: " ++ pyErrStr e, bol := bol }, st)) := by
  refine ⟨?_, ?_, ?_, ?_, ?_, ?_⟩
  · intro hf
    cases hb : stop_alert_body loadA now st bol reason with
    | ok p =>
      have hop : stop_alert loadA now st bol reason = p := by
        simp [stop_alert, hb, pyCatch]
      rw [hop] at hf ⊢
      rcases stop_alert_body_ok hb with hnf | hs
      · rw [hnf]
        exact ⟨rfl, notFound_message_ne bol⟩
      · rw [hs] at hf
        simp at hf
    | error e =>
      have hop : stop_alert loadA now st bol reason =
          ({ success := false, message := "Error stopping alert: " ++ pyErrStr e, bol := bol }, st) := by
        simp [stop_alert, hb, pyCatch]
      rw [hop]
      exact ⟨rfl, prefixed_message_ne _ _ (by decide)⟩
  · intro hf
    cases hb : add_note_body loadA llmA now st bol note with
    | ok p =>
      have hop : add_note loadA llmA now st bol note = p := by
        simp [add_note, hb, pyCatch]
      rw [hop] at hf ⊢
      rcases add_note_body_ok hb with hnf | hs
      · rw [hnf]
        exact ⟨rfl, notFound_message_ne bol⟩
      · rw [hs] at hf
        simp at hf
    | error e =>
      have hop : add_note loadA llmA now st bol note =
          ({ success := false, message := "Error adding note: " ++ pyErrStr e, bol := bol }, st) := by
        simp [add_note, hb, pyCatch]
      rw [hop]
      exact ⟨rfl, prefixed_message_ne _ _ (by decide)⟩
  · intro hf
    cases hb : send_email_alert_body loadC llmC now st bol escalate with
    | ok p =>
      have hop : send_email_alert loadC llmC now st bol escalate = p := by
        simp [send_email_alert, hb, pyCatch]
      rw [hop] at hf ⊢
      rcases send_email_alert_body_ok hb with hnf | hs
      · rw [hnf]
        exact ⟨rfl, notFound_message_ne bol⟩
      · rw [hs] at hf
        simp at hf
    | error e =>
      have hop : send_email_alert loadC llmC now st bol escalate =
          ({ success := false, message := "Error sending email: " ++ pyErrStr e, bol := bol }, st) := by
        simp [send_email_alert, hb, pyCatch]
      rw [hop]
      exact ⟨rfl, prefixed_message_ne _ _ (by decide)⟩
  · intro e he
    simp [stop_alert, he, pyCatch]
  · intro e he
    simp [add_note, he, pyCatch]
  · intro e he
    simp [send_email_alert, he, pyCatch]

/-- C6 witness: with a failed load, stop_alert returns the structured
failure carrying the requested bol, and with a healthy load an absent
bol gives a failure with a message. -/
theorem C6_structured_failures_witness :
    ((stop_alert (.error (.exn "disk")) "t0" stSample "B1" "r").1.bol = "B1" ∧
      (stop_alert (.error (.exn "disk")) "t0" stSample "B1" "r").1.message ≠ "") ∧
    ((send_email_alert (.ok ()) llmDown "t0" stSample "B1" true).1.success = false ∧
      (send_email_alert (.ok ()) llmDown "t0" stSample "B1" true).1.bol = "B1") := by
  refine ⟨?_, by decide, ?_⟩
  · exact (C6_structured_failures (.error (.exn "disk")) (.ok ()) llmDown llmDown
      "t0" stSample "B1" "r" "n" true).1 (by decide)
  · exact ((C6_structured_failures (.error (.exn "disk")) (.ok ()) llmDown llmDown
      "t0" stSample "B1" "r" "n" true).2.2.1 (by decide)).1

/-- C9: whenever one of the three actions returns a failure result, the
action log is exactly what it was before the call — an entry is appended
only on the success path. -/
theorem C9_no_log_on_failure (loadA loadC : Except PyErr Unit)
    (llmA llmC : String → Except PyErr ChatResponse)
    (now : String) (st : ExecState) (bol reason note : String)
    (escalate : Bool) :
    ((stop_alert loadA now st bol reason).1.success = false →
      (stop_alert loadA now st bol reason).2.action_log = st.action_log) ∧
    ((add_note loadA llmA now st bol note).1.success = false →
      (add_note loadA llmA now st bol note).2.action_log = st.action_log) ∧
    ((send_email_alert loadC llmC now st bol escalate).1.success = false →
      (send_email_alert loadC llmC now st bol escalate).2.action_log = st.action_log) := by
  refine ⟨?_, ?_, ?_⟩
  · intro hf
    cases hb : stop_alert_body loadA now st bol reason with
    | ok p =>
      have hop : stop_alert loadA now st bol reason = p := by
        simp [stop_alert, hb, pyCatch]
      rw [hop] at hf ⊢
      rcases stop_alert_body_ok hb with hnf | hs
      · rw [hnf]
      · rw [hs] at hf
        simp at hf
    | error e =>
      simp [stop_alert, hb, pyCatch]
  · intro hf
    cases hb : add_note_body loadA llmA now st bol note with
    | ok p =>
      have hop : add_note loadA llmA now st bol note = p := by
        simp [add_note, hb, pyCatch]
      rw [hop] at hf ⊢
      rcases add_note_body_ok hb with hnf | hs
      · rw [hnf]
      · rw [hs] at hf
        simp at hf
    | error e =>
      simp [add_note, hb, pyCatch]
  · intro hf
    cases hb : send_email_alert_body loadC llmC now st bol escalate with
    | ok p =>
      have hop : send_email_alert loadC llmC now st bol escalate = p := by
        simp [send_email_alert, hb, pyCatch]
      rw [hop] at hf ⊢
      rcases send_email_alert_body_ok hb with hnf | hs
      · rw [hnf]
      · rw [hs] at hf
        simp at hf
    | error e =>
      simp [send_email_alert, hb, pyCatch]

/-- C9 witness: a failed send_email_alert on a present bol, a failed
stop_alert on an absent bol, and a failed add_note under a broken loader
all leave the (empty) sample log unchanged. -/
theorem C9_no_log_on_failure_witness :
    ((send_email_alert (.ok ()) llmDown "t0" stSample "B1" false).1.success = false ∧
      (send_email_alert (.ok ()) llmDown "t0" stSample "B1" false).2.action_log =
        stSample.action_log) ∧
    ((stop_alert (.ok ()) "t0" stSample "ZZ" "r").1.success = false ∧
      (stop_alert (.ok ()) "t0" stSample "ZZ" "r").2.action_log = stSample.action_log) ∧
    ((add_note (.error (.exn "disk")) llmDown "t0" stSample "B1" "n").1.success = false ∧
      (add_note (.error (.exn "disk")) llmDown "t0" stSample "B1" "n").2.action_log =
        stSample.action_log) := by
  refine ⟨⟨by decide, ?_⟩, ⟨by decide, ?_⟩, ⟨by decide, ?_⟩⟩
  · exact (C9_no_log_on_failure (.ok ()) (.ok ()) llmDown llmDown
      "t0" stSample "B1" "r" "n" false).2.2 (by decide)
  · exact (C9_no_log_on_failure (.ok ()) (.ok ()) llmDown llmDown
      "t0" stSample "ZZ" "r" "n" false).1 (by decide)
  · exact (C9_no_log_on_failure (.error (.exn "disk")) (.ok ()) llmDown llmDown
      "t0" stSample "B1" "r" "n" false).2.1 (by decide)

/-- C8: highRiskAlerts(t) is a permutation of the rows of the joined
view with score at least t, is sorted descending by score, and shrinks
monotonically: every row returned at a higher threshold is returned at
any lower one. -/
theorem C8_high_risk (df : List JoinedRow) (t1 t2 : ℚ) (h : t1 ≤ t2) :
    (get_high_risk_alerts df t1).Perm
      (df.filter (fun r => decide (t1 ≤ r.OTIF_Risk_Score))) ∧
    (get_high_risk_alerts df t1).Pairwise
      (fun a b => b.OTIF_Risk_Score ≤ a.OTIF_Risk_Score) ∧
    (∀ r ∈ get_high_risk_alerts df t2, r ∈ get_high_risk_alerts df t1) := by
  refine ⟨List.perm_insertionSort riskGE _, List.sorted_insertionSort riskGE _, ?_⟩
  intro r hr
  have h2 := (List.perm_insertionSort riskGE
    (df.filter (fun r => decide (t2 ≤ r.OTIF_Risk_Score)))).mem_iff.mp hr
  rw [List.mem_filter] at h2
  have hscore : t2 ≤ r.OTIF_Risk_Score := by simpa using h2.2
  refine (List.perm_insertionSort riskGE (df.filter (fun r => decide (t1 ≤ r.OTIF_Risk_Score)))).mem_iff.mpr ?_
  rw [List.mem_filter]
  exact ⟨h2.1, by simpa using le_trans h hscore⟩

/-- C8 witness: dfSample at thresholds 0.7 and 0.9; the 0.9-risk row is
in both results. -/
theorem C8_high_risk_witness :
    q07 ≤ q09 ∧
    mkRow "B1" "Acme" "Plant1" "2024-05-02" q09 "Delayed" 20 "CarX" ∈
      get_high_risk_alerts dfSample q09 ∧
    mkRow "B1" "Acme" "Plant1" "2024-05-02" q09 "Delayed" 20 "CarX" ∈
      get_high_risk_alerts dfSample q07 := by
  refine ⟨by decide, by decide, ?_⟩
  exact (C8_high_risk dfSample q07 q09 (by decide)).2.2 _ (by decide)

/-- The size of one groupby group is the count of its key in the carrier
column. -/
theorem carrierGroup_length_count (df : List JoinedRow) (c : String) :
    (carrierGroup df c).length = (df.map (fun r => r.Carrier_Name_bol)).count c := by
  simp [carrierGroup, List.count, List.countP_map, List.countP_eq_length_filter,
    List.filter_map]
  rfl

/-- The group sizes over the distinct carrier keys sum to the row count
of the joined view. -/
theorem sum_counts (df : List JoinedRow) :
    (((df.map (fun r => r.Carrier_Name_bol)).dedup).map
      (fun c => (carrierGroup df c).length)).sum = df.length := by
  have h := List.sum_map_count_dedup_eq_length (df.map (fun r => r.Carrier_Name_bol))
  rw [List.length_map] at h
  rw [← h]
  exact congrArg List.sum
    (List.map_congr_left (fun c _ => carrierGroup_length_count df c))

/-- C3: every output row of carrierPerformance reports the true group
size, the true "On Time" count and the on-time rate round(k/n*100, 1)
computed from them; the Total_Shipments column sums to the row count of
the joined view; and the output is sorted descending by mean delay
hours. -/
theorem C3_carrier_performance (df : List JoinedRow) :
    (∀ row ∈ get_carrier_performance df,
      row.Total_Shipments = (carrierGroup df row.Carrier).length ∧
      row.On_Time_Count = ((carrierGroup df row.Carrier).filter
        (fun r => r.Delivery_Status == some "On Time")).length ∧
      row.On_Time_Rate =
        pyRound1 ((row.On_Time_Count : ℚ) / (row.Total_Shipments : ℚ) * 100)) ∧
    ((get_carrier_performance df).map (fun row => row.Total_Shipments)).sum =
      df.length ∧
    (get_carrier_performance df).Pairwise
      (fun a b => b.Avg_Delay_Hours ≤ a.Avg_Delay_Hours) := by
  have hperm : (get_carrier_performance df).Perm
      ((List.insertionSort (· ≤ ·)
        ((df.map (fun r => r.Carrier_Name_bol)).dedup)).map (carrierRow df)) :=
    List.perm_insertionSort delayGE _
  refine ⟨?_, ?_, List.sorted_insertionSort delayGE _⟩
  · intro row hrow
    obtain ⟨c, hc, hrc⟩ := List.mem_map.mp (hperm.mem_iff.mp hrow)
    subst hrc
    exact ⟨rfl, rfl, rfl⟩
  · rw [(hperm.map (fun row => row.Total_Shipments)).sum_eq, List.map_map]
    have hperm2 : (List.insertionSort (· ≤ ·)
        ((df.map (fun r => r.Carrier_Name_bol)).dedup)).Perm
          ((df.map (fun r => r.Carrier_Name_bol)).dedup) :=
      List.perm_insertionSort _ _
    rw [(hperm2.map ((fun row => row.Total_Shipments) ∘ carrierRow df)).sum_eq]
    exact sum_counts df

/-- C3 witness: a single-carrier view with three shipments, two of them
on time; the aggregated row is in the output, its rate is the rounded
ratio, and the shipment total matches the row count. -/
theorem C3_carrier_performance_witness :
    carrierRow dfOne "CarX" ∈ get_carrier_performance dfOne ∧
    (carrierRow dfOne "CarX").On_Time_Rate =
      pyRound1 (((carrierRow dfOne "CarX").On_Time_Count : ℚ) /
        ((carrierRow dfOne "CarX").Total_Shipments : ℚ) * 100) ∧
    ((get_carrier_performance dfOne).map (fun row => row.Total_Shipments)).sum =
      dfOne.length := by
  have heval : get_carrier_performance dfOne = [carrierRow dfOne "CarX"] := rfl
  have hmem : carrierRow dfOne "CarX" ∈ get_carrier_performance dfOne := by
    rw [heval]
    exact List.mem_singleton_self _
  exact ⟨hmem, ((C3_carrier_performance dfOne).1 _ hmem).2.2,
    (C3_carrier_performance dfOne).2.1⟩

end OTIF
